import Mathlib

/-!
Verification of the av-licensing scripts.

This file shallowly embeds the five Python scripts of the repository
(`validate-request.py`, `validate-version.py`, `generate-license.py`,
`check-expiring-licenses.py`, `auto-reactivate.py`) as executable Lean
definitions and proves the specification claims about them.

Modelling conventions:
* Python strings are `String` / `List Char`; only the ASCII fragment of
  Python's Unicode case folding and whitespace classes is modelled, which
  is what the scripts' data exercises.
* `datetime` instants are `Int` (seconds); `timedelta(days = n)` is
  `n * 86400`.  A stored date string is a `DateVal`: `DateVal.iso t` stands
  for a string that `datetime.fromisoformat` (after the script's
  `replace("Z", "+00:00")`) parses to the instant `t`, and `DateVal.junk s`
  for a string it raises on.  `isoformat` of an instant re-parses to the
  same instant, so serialising then parsing is the identity on `iso`.
* A JSON object field that may be absent is an `Option`; Python truthiness
  of an optional string is `pyTruthy`.
* `sys.exit(1)` / a raised-and-caught exception on one record is `none` of
  an `Option` result.
-/

/-- ASCII fragment of Python's `\s` class and of `str.strip` default chars. -/
def pyIsSpace (c : Char) : Bool :=
  c == ' ' || c == '\t' || c == '\n' || c == '\r' || c == '\x0b' || c == '\x0c'

def isDigitC (c : Char) : Bool :=
  48 ≤ c.toNat && c.toNat ≤ 57

def isUpperAscii (c : Char) : Bool :=
  65 ≤ c.toNat && c.toNat ≤ 90

def isLowerAscii (c : Char) : Bool :=
  97 ≤ c.toNat && c.toNat ≤ 122

def isAlphaAscii (c : Char) : Bool :=
  isUpperAscii c || isLowerAscii c

/-- Character class `[A-Za-z0-9]` of the fingerprint pattern. -/
def isAlnumAscii (c : Char) : Bool :=
  isUpperAscii c || isLowerAscii c || isDigitC c

/-- ASCII fragment of Python's `str.lower` on one character. -/
def pyLowerChar (c : Char) : Char :=
  if isUpperAscii c then Char.ofNat (c.toNat + 32) else c

/-- ASCII fragment of Python's `str.lower`. -/
def pyLower (cs : List Char) : List Char :=
  cs.map pyLowerChar

/-- Python's `str.strip()` (ASCII whitespace). -/
def pyStrip (cs : List Char) : List Char :=
  ((cs.dropWhile pyIsSpace).reverse.dropWhile pyIsSpace).reverse

/-- Does the second list start with the first one? -/
def startsWithL : List Char → List Char → Bool
  | [], _ => true
  | _ :: _, [] => false
  | a :: as, b :: bs => a == b && startsWithL as bs

/-- Python's substring test `needle in hay`. -/
def occursL (needle : List Char) : List Char → Bool
  | [] => startsWithL needle []
  | c :: rest => startsWithL needle (c :: rest) || occursL needle rest

/-- Python's substring test on `String`s. -/
def occursStr (needle hay : String) : Bool :=
  occursL needle.data hay.data

/-- Consume a literal pattern from the front of the input, or fail. -/
def dropLiteral : List Char → List Char → Option (List Char)
  | [], cs => some cs
  | _ :: _, [] => none
  | p :: ps, c :: cs => if p == c then dropLiteral ps cs else none

/-- Python's `s.split(".")` (always at least one, possibly empty, group). -/
def splitDot : List Char → List (List Char)
  | [] => [[]]
  | c :: cs =>
    let r := splitDot cs
    if c == '.' then [] :: r
    else
      match r with
      | [] => [[c]]
      | g :: gs => (c :: g) :: gs

def digitsToNat (cs : List Char) : Nat :=
  cs.foldl (fun n c => n * 10 + (c.toNat - 48)) 0

/-- Python truthiness of an optional string (`None` and `""` are falsy). -/
def pyTruthy : Option String → Bool
  | none => false
  | some s => !(s == "")

/-! ## `scripts/validate-request.py` -/

/-- `validate_hardware_fingerprint`: `re.match(r'^[A-Za-z0-9]{16}$', fp)`.
Python's `$` also matches just before one final newline, so a 17-character
input whose last character is a newline is accepted too. -/
def validate_hardware_fingerprint (s : String) : Bool :=
  let cs := s.data
  (cs.length == 16 && cs.all isAlnumAscii)
    || (cs.length == 17 && cs.getLast? == some '\n' && (cs.take 16).all isAlnumAscii)

/-- Character class `[a-zA-Z0-9._%+-]` of the email local part. -/
def isLocalChar (c : Char) : Bool :=
  isAlnumAscii c || c == '.' || c == '_' || c == '%' || c == '+' || c == '-'

/-- Character class `[a-zA-Z0-9.-]` of the email domain part. -/
def isDomChar (c : Char) : Bool :=
  isAlnumAscii c || c == '.' || c == '-'

/-- Top-level domain part `[a-zA-Z]{2,}` reaching the end of the input. -/
def tldOk (cs : List Char) : Bool :=
  decide (2 ≤ cs.length) && cs.all isAlphaAscii

/-- After a first domain character: the rest of `[a-zA-Z0-9.-]+\.[a-zA-Z]{2,}`
matched to the end of the input, with the regex's backtracking expressed as
a search for any admissible split at a dot. -/
def domainTail : List Char → Bool
  | [] => false
  | c :: cs => (c == '.' && tldOk cs) || (isDomChar c && domainTail cs)

/-- Domain side `[a-zA-Z0-9.-]+\.[a-zA-Z]{2,}` matched to the end. -/
def domainOk : List Char → Bool
  | [] => false
  | c :: cs => isDomChar c && domainTail cs

/-- The email pattern without the `$` nuance: `[a-zA-Z0-9._%+-]+@` then the
domain side, consuming the whole input. -/
def emailCoreL (cs : List Char) : Bool :=
  let loc := cs.takeWhile isLocalChar
  let rest := cs.dropWhile isLocalChar
  !loc.isEmpty &&
    match rest with
    | '@' :: dom => domainOk dom
    | _ => false

/-- `validate_email`: `re.match(r'^[a-zA-Z0-9._%+-]+@[a-zA-Z0-9.-]+\.[a-zA-Z]{2,}$', s)`,
with `$` also matching before one final newline. -/
def validate_email (s : String) : Bool :=
  emailCoreL s.data
    || (s.data.getLast? == some '\n' && emailCoreL s.data.dropLast)

/-- Scan for the two title groups of
`re.match(r'Auto-Activation Request - (.+?) - (.+)', title)` after the literal
head has been consumed: `g1rev` is the (reversed) text taken by the
non-greedy `(.+?)` so far; at each position the shortest viable close is
tried first, mirroring the regex's backtracking.  `(.+)` is greedy with
nothing after it, so the second group runs to the next newline or the end. -/
def scanTitleLoop (g1rev : List Char) : List Char → Option (List Char × List Char)
  | [] => none
  | c :: cs =>
    match c, cs with
    | ' ', '-' :: ' ' :: d :: ds =>
      if g1rev.isEmpty || d == '\n' then scanTitleLoop (' ' :: g1rev) cs
      else some (g1rev.reverse, d :: ds.takeWhile (fun x => !(x == '\n')))
    | _, _ => if c == '\n' then none else scanTitleLoop (c :: g1rev) cs

/-- `re.match(r'Auto-Activation Request - (.+?) - (.+)', title)`. -/
def matchActivationTitle (title : List Char) : Option (List Char × List Char) :=
  match dropLiteral "Auto-Activation Request - ".data title with
  | some rest => scanTitleLoop [] rest
  | none => none

/-- The `\s*([^\n]+)` tail of a body-field pattern at a fixed position: the
greedy `\s*` backtracks from the longest whitespace run until the group can
start on a non-newline character; the group then runs to the next newline or
the end. -/
def wsGroup : List Char → Option (List Char)
  | [] => none
  | c :: cs =>
    if pyIsSpace c then
      match wsGroup cs with
      | some g => some g
      | none =>
        if c == '\n' then none
        else some (c :: cs.takeWhile (fun x => !(x == '\n')))
    else
      if c == '\n' then none
      else some (c :: cs.takeWhile (fun x => !(x == '\n')))

/-- One attempt of `label + r'\s*([^\n]+)'` at the current position. -/
def matchFieldAt (label : List Char) (cs : List Char) : Option (List Char) :=
  match dropLiteral label cs with
  | some s => wsGroup s
  | none => none

/-- `re.search(label + r'\s*([^\n]+)', body)`: the leftmost position where
the pattern matches, returning the captured group. -/
def searchFieldL (label : List Char) : List Char → Option (List Char)
  | [] => matchFieldAt label []
  | c :: cs =>
    match matchFieldAt label (c :: cs) with
    | some g => some g
    | none => searchFieldL label cs

/-- A body-field extraction with the script's `.strip()` applied. -/
def searchField (label : String) (body : String) : Option String :=
  (searchFieldL label.data body.data).map (fun g => String.mk (pyStrip g))

/-- The fingerprint block of `extract_issue_info`'s validation phase. -/
def fingerprintErrors (fp : Option String) : List String :=
  if !(pyTruthy fp) then ["Hardware fingerprint not found"]
  else if !(validate_hardware_fingerprint (fp.getD "")) then
    ["Invalid hardware fingerprint format"]
  else []

/-- The company block of `extract_issue_info`'s validation phase. -/
def companyErrors (c : Option String) : List String :=
  if !(pyTruthy c) then ["Company name not found"]
  else if (c.getD "").length < 2 then ["Company name too short"]
  else []

/-- The email block of `extract_issue_info`'s validation phase. -/
def emailErrors (e : Option String) : List String :=
  if !(pyTruthy e) then ["Contact email not found"]
  else if !(validate_email (e.getD "")) then ["Invalid email format"]
  else []

structure IssueInfo where
  fingerprint : Option String
  company : Option String
  email : Option String
  name : Option String
  valid : Bool
  errors : List String
deriving DecidableEq

/-- `extract_issue_info(title, body)`: title extraction, body extraction with
the title-first fallbacks for fingerprint and company, then the three
independent validation blocks appended in order. -/
def extract_issue_info (title body : String) : IssueInfo :=
  let tm := matchActivationTitle title.data
  let company0 : Option String := tm.map (fun g => String.mk (pyStrip g.1))
  let fingerprint0 : Option String := tm.map (fun g => String.mk (pyStrip g.2))
  let bodyOn := !(body == "")
  let email0 : Option String := if bodyOn then searchField "Email:" body else none
  let name0 : Option String := if bodyOn then searchField "Contact:" body else none
  let fingerprint1 : Option String :=
    if bodyOn && !(pyTruthy fingerprint0) then
      match searchField "Hardware Fingerprint:" body with
      | some v => some v
      | none => fingerprint0
    else fingerprint0
  let company1 : Option String :=
    if bodyOn && !(pyTruthy company0) then
      match searchField "Company:" body with
      | some v => some v
      | none => company0
    else company0
  let errors :=
    fingerprintErrors fingerprint1 ++ companyErrors company1 ++ emailErrors email0
  { fingerprint := fingerprint1
    company := company1
    email := email0
    name := name0
    valid := errors == []
    errors := errors }

/-! ## `scripts/validate-version.py` -/

/-- Python's `int(x)` on a string, restricted to the ASCII decimal numerals
the scripts exchange: surrounding whitespace is stripped, one optional sign,
then a nonempty run of digits (digit-group underscores are not modelled). -/
def pyIntOfStr (cs : List Char) : Option Int :=
  let t := pyStrip cs
  match t with
  | '-' :: ds =>
    if !ds.isEmpty && ds.all isDigitC then some (-(digitsToNat ds : Int)) else none
  | '+' :: ds =>
    if !ds.isEmpty && ds.all isDigitC then some ((digitsToNat ds : Int)) else none
  | ds =>
    if !ds.isEmpty && ds.all isDigitC then some ((digitsToNat ds : Int)) else none

/-- `[int(x) for x in v.split('.')]`, with `none` for the `ValueError` the
script's `try` block turns into the result `0`. -/
def parseParts (v : String) : Option (List Int) :=
  (splitDot v.data).mapM pyIntOfStr

/-- The `for i in range(len(...))` comparison loop of `compare_versions`,
run on the two already padded (hence equal-length) part lists. -/
def cmpLex : List Int → List Int → Int
  | a :: as, b :: bs => if b < a then 1 else if a < b then -1 else cmpLex as bs
  | _, _ => 0

/-- The two `while` padding loops of `compare_versions`: append zeros until
the list has length `n`. -/
def padZeros (p : List Int) (n : Nat) : List Int :=
  p ++ List.replicate (n - p.length) 0

/-- `compare_versions(v1, v2)`: split on dots, parse, pad to equal length,
compare component-wise; any parse failure is caught and returned as `0`. -/
def compare_versions (v1 v2 : String) : Int :=
  match parseParts v1, parseParts v2 with
  | some p1, some p2 =>
    let n := max p1.length p2.length
    cmpLex (padZeros p1 n) (padZeros p2 n)
  | _, _ => 0

/-- Component-wise left-to-right comparison where a missing component counts
as zero-padding of the shorter tuple. -/
def cmpZero : List Int → List Int → Int
  | [], [] => 0
  | a :: as, [] => if 0 < a then 1 else if a < 0 then -1 else cmpZero as []
  | [], b :: bs => if b < 0 then 1 else if 0 < b then -1 else cmpZero [] bs
  | a :: as, b :: bs => if b < a then 1 else if a < b then -1 else cmpZero as bs

/-- Modelled from the spec: "dot-delimited integer tuples, compared
component-wise left to right after zero-padding the shorter to the longer's
length; missing/non-numeric components are a comparison error, treated as
equal (0) rather than propagated". -/
def specCompare (v1 v2 : String) : Int :=
  match parseParts v1, parseParts v2 with
  | some p1, some p2 => cmpZero p1 p2
  | _, _ => 0

/-- `is_reactivation_request(title, body)`. -/
def is_reactivation_request (title body : String) : Bool :=
  if occursL "reactivation".data (pyLower title.data) then true
  else if occursL "auto-reactivation".data (pyLower title.data) then true
  else if !(body == "") && occursL "reactivation".data (pyLower body.data) then true
  else false

/-- The result dictionary of `validate_version`. -/
structure VersionDecision where
  valid : Bool
  client_version : String
  minimum_version : String
  latest_version : String
  is_latest : Bool
  is_acceptable : Bool
  is_reactivation : Bool
  message : String
  warning_only : Bool
deriving DecidableEq

/-- `validate_version(client_version, minimum_version, latest_version,
is_reactivation, allow_older_reactivations)`. -/
def validate_version (client_version : Option String)
    (minimum_version latest_version : String)
    (is_reactivation allow_older_reactivations : Bool) : VersionDecision :=
  let base : VersionDecision :=
    { valid := false
      client_version := if pyTruthy client_version then client_version.getD "" else "unknown"
      minimum_version := minimum_version
      latest_version := latest_version
      is_latest := false
      is_acceptable := false
      is_reactivation := is_reactivation
      message := ""
      warning_only := false }
  if pyTruthy client_version = false then
    if is_reactivation && allow_older_reactivations then
      { base with
        valid := true
        warning_only := true
        message := "Reactivation request - version not provided but allowed for existing licenses" }
    else
      { base with message := "No software version information provided in request" }
  else
    let cv := client_version.getD ""
    let vs_minimum := compare_versions cv minimum_version
    let vs_latest := compare_versions cv latest_version
    let r :=
      { base with
        is_acceptable := decide (0 ≤ vs_minimum)
        is_latest := decide (0 ≤ vs_latest) }
    if is_reactivation && allow_older_reactivations then
      if r.is_latest = false then
        { r with
          valid := true
          warning_only := true
          message := "Reactivation allowed for version " ++ cv ++
            ", but please update to " ++ latest_version ++ " for latest features" }
      else
        { r with
          valid := true
          message := "Reactivation approved for current version " ++ cv }
    else
      let r2 := { r with valid := r.is_acceptable }
      if vs_minimum < 0 then
        { r2 with message := "Version " ++ cv ++ " is outdated. Minimum required: " ++
            minimum_version ++ ". Latest: " ++ latest_version ++
            ". Please update software before activation." }
      else if vs_latest < 0 then
        { r2 with
          warning_only := true
          message := "Version " ++ cv ++ " is acceptable but not latest. Latest version: " ++
            latest_version ++ ". Consider updating for new features and bug fixes." }
      else
        { r2 with message := "Version " ++ cv ++ " is current and up to date." }

/-! ## License records and `scripts/generate-license.py` -/

/-- A stored date string: `iso t` is a string `datetime.fromisoformat` (after
the scripts' `replace("Z", "+00:00")`) parses to the instant `t`; `junk s` is
a string it raises `ValueError` on.  An `iso` string is never empty. -/
inductive DateVal where
  | iso (t : Int)
  | junk (s : String)
deriving DecidableEq

/-- Result of `datetime.fromisoformat(s.replace("Z", "+00:00"))`: the parsed
instant, or `none` for the raised `ValueError`. -/
def parseDate : DateVal → Option Int
  | DateVal.iso t => some t
  | DateVal.junk _ => none

/-- Python truthiness of a date string (`iso` strings are nonempty). -/
def dateFalsy : DateVal → Bool
  | DateVal.iso _ => false
  | DateVal.junk s => s == ""

/-- The license dictionary built by `create_license` and consumed by the
scanner and the reactivation script.  Fields that a loaded JSON object may
lack (`status`, dates, and the two reactivation fields, which
`create_license` does not write) are `Option`s. -/
structure LicenseRecord where
  license_key : String
  hardware_fingerprint : String
  company_name : String
  contact_email : String
  created_date : Option DateVal
  expires_date : Option DateVal
  status : Option String
  version : String
  auto_generated : Bool
  reactivation_required : Bool
  generated_by : String
  generation_method : String
  reactivation_count : Option Nat
  last_reactivated : Option DateVal
deriving DecidableEq

/-- `generate_license_key(fingerprint, company, email)`: the script hashes
the string below with SHA-256 and keeps the first 32 hex characters,
upper-cased.  The digest step is not modelled; the key is represented by the
exact data string the script feeds to the hash, which determines the digest. -/
def generate_license_key (fingerprint company email : String) (now : Int) : String :=
  fingerprint ++ ":" ++ company ++ ":" ++ email ++ ":" ++ toString now

/-- `create_license(fingerprint, company, email, duration_days)` at instant
`now`: builds the full license dictionary with
`expires = now + timedelta(days = duration_days)` and no duration check. -/
def create_license (fingerprint company email : String) (duration_days now : Int) :
    LicenseRecord :=
  { license_key := generate_license_key fingerprint company email now
    hardware_fingerprint := fingerprint
    company_name := company
    contact_email := email
    created_date := some (DateVal.iso now)
    expires_date := some (DateVal.iso (now + duration_days * 86400))
    status := some "active"
    version := "3.2.0"
    auto_generated := true
    reactivation_required := true
    generated_by := "github-actions"
    generation_method := "automated"
    reactivation_count := none
    last_reactivated := none }

/-- The `main` of `generate-license.py`: the three input gates (fingerprint
truthy and of length at least 32, company of length at least 2, email
containing an `@`), then `create_license`.  `none` is the script's
`sys.exit(1)`.  There is no gate on the duration argument. -/
def generateMain (fingerprint company email : String) (duration now : Int) :
    Option LicenseRecord :=
  if fingerprint == "" || decide (fingerprint.length < 32) then none
  else if company == "" || decide (company.length < 2) then none
  else if email == "" || !(occursStr "@" email) then none
  else some (create_license fingerprint company email duration now)

/-! ## `scripts/auto-reactivate.py` -/

/-- `reactivate_license(license_data)` at instant `now`: parse the stored
expiry, extend it by 30 days, stamp `last_reactivated`, bump
`reactivation_count` (`dict.get` default 0), force `status` to active.
`none` is the `KeyError`/`ValueError` the caller's `try` block catches. -/
def reactivate_license (now : Int) (r : LicenseRecord) : Option LicenseRecord :=
  match r.expires_date with
  | some (DateVal.iso t) =>
    some { r with
      expires_date := some (DateVal.iso (t + 30 * 86400))
      last_reactivated := some (DateVal.iso now)
      reactivation_count := some (r.reactivation_count.getD 0 + 1)
      status := some "active" }
  | _ => none

/-! ## `scripts/check-expiring-licenses.py` -/

/-- `find_expiring_licenses(licenses, days_ahead)` at instant `now`, with
`cutoff_date = now + timedelta(days = days_ahead)`: the loop keeps active
records whose expiry parses and is at or before the cutoff, and `continue`s
past every other record. -/
def find_expiring_licenses (now days_ahead : Int) : List LicenseRecord → List LicenseRecord
  | [] => []
  | r :: rest =>
    if r.status ≠ some "active" then find_expiring_licenses now days_ahead rest
    else
      match r.expires_date with
      | none => find_expiring_licenses now days_ahead rest
      | some d =>
        if dateFalsy d then find_expiring_licenses now days_ahead rest
        else
          match d with
          | DateVal.iso t =>
            if t ≤ now + days_ahead * 86400 then
              r :: find_expiring_licenses now days_ahead rest
            else find_expiring_licenses now days_ahead rest
          | DateVal.junk _ => find_expiring_licenses now days_ahead rest

/-- The predicate a record satisfies exactly when the scan keeps it:
status is active and the stored expiry parses to an instant at or before
`now` plus the lookahead window. -/
def expiringP (now days_ahead : Int) (r : LicenseRecord) : Bool :=
  decide (r.status = some "active") &&
    match r.expires_date with
    | some (DateVal.iso t) => decide (t ≤ now + days_ahead * 86400)
    | _ => false

/-- The `main` of `check-expiring-licenses.py` reports the expiring subset
(the 5-day default window) together with the total number of loaded records
(`total_licenses`). -/
def scanReport (now : Int) (licenses : List LicenseRecord) :
    List LicenseRecord × Nat :=
  (find_expiring_licenses now 5 licenses, licenses.length)

/-! ## Substring lemmas -/

theorem strData_append (a b : String) : (a ++ b).data = a.data ++ b.data := rfl

theorem startsWithL_append (s t : List Char) : startsWithL s (s ++ t) = true := by
  induction s with
  | nil => rfl
  | cons c cs ih => simp [startsWithL, ih]

theorem occursL_of_startsWithL {n h : List Char} (hs : startsWithL n h = true) :
    occursL n h = true := by
  cases h with
  | nil => simpa [occursL] using hs
  | cons c cs => simp [occursL, hs]

theorem occursL_cons_of (n : List Char) (c : Char) {h : List Char}
    (ho : occursL n h = true) : occursL n (c :: h) = true := by
  simp [occursL, ho]

theorem occursL_append_left (n a : List Char) {h : List Char}
    (ho : occursL n h = true) : occursL n (a ++ h) = true := by
  induction a with
  | nil => simpa using ho
  | cons c cs ih => simpa [occursL] using Or.inr ih

theorem occursL_middle (n a b : List Char) : occursL n (a ++ (n ++ b)) = true :=
  occursL_append_left n a (occursL_of_startsWithL (startsWithL_append n b))

theorem occursL_of_startsWithL_append {p q h : List Char}
    (hs : startsWithL (p ++ q) h = true) : occursL q h = true := by
  induction p generalizing h with
  | nil => exact occursL_of_startsWithL hs
  | cons c cs ih =>
    cases h with
    | nil => simp [startsWithL] at hs
    | cons d ds =>
      simp only [List.cons_append, startsWithL, Bool.and_eq_true] at hs
      exact occursL_cons_of _ _ (ih hs.2)

theorem occursL_append_pat {p q h : List Char} (ho : occursL (p ++ q) h = true) :
    occursL q h = true := by
  induction h with
  | nil =>
    cases p <;> cases q <;> simp_all [occursL, startsWithL]
  | cons c cs ih =>
    rcases (by simpa [occursL] using ho : startsWithL (p ++ q) (c :: cs) = true ∨
        occursL (p ++ q) cs = true) with h1 | h2
    · exact occursL_of_startsWithL_append h1
    · exact occursL_cons_of _ _ (ih h2)

/-! ## Version policy lemmas -/

theorem is_reactivation_request_eq (title body : String) :
    is_reactivation_request title body
      = (occursL "reactivation".data (pyLower title.data)
          || occursL "reactivation".data (pyLower body.data)) := by
  have hauto : occursL "auto-reactivation".data (pyLower title.data) = true →
      occursL "reactivation".data (pyLower title.data) = true := by
    intro h
    have he : "auto-reactivation".data = "auto-".data ++ "reactivation".data := by decide
    exact occursL_append_pat (he ▸ h)
  unfold is_reactivation_request
  cases h1 : occursL "reactivation".data (pyLower title.data) with
  | true => simp [h1]
  | false =>
    cases h2 : occursL "auto-reactivation".data (pyLower title.data) with
    | true => exact absurd (hauto h2) (by simp [h1])
    | false =>
      cases hb : body == "" with
      | true =>
        have hb' : body = "" := by simpa using hb
        subst hb'
        simp [h1, h2, occursL, startsWithL, pyLower]
      | false => simp [h1, h2, hb]

theorem validate_version_reactivation_allow_valid (cv : Option String) (m l : String) :
    (validate_version cv m l true true).valid = true := by
  unfold validate_version
  by_cases htr : pyTruthy cv = false
  · simp [htr]
  · simp only [if_neg htr, Bool.and_self, if_pos]
    split <;> rfl

/-- C10: a request is classified as a reactivation exactly when the substring
"reactivation" occurs case-insensitively in the title or anywhere in the
body; consequently, whenever the body merely mentions "reactivation" (with
older reactivations allowed by policy), the version decision is valid no
matter what client version the new-activation minimum rule would demand. -/
theorem c10_reactivation_classification (title body : String) (cv : Option String)
    (m l : String) :
    is_reactivation_request title body
      = (occursL "reactivation".data (pyLower title.data)
          || occursL "reactivation".data (pyLower body.data))
    ∧ (occursL "reactivation".data (pyLower body.data) = true →
        (validate_version cv m l (is_reactivation_request title body) true).valid = true) := by
  refine ⟨is_reactivation_request_eq title body, fun hb => ?_⟩
  have hre : is_reactivation_request title body = true := by
    rw [is_reactivation_request_eq title body, hb, Bool.or_true]
  rw [hre]
  exact validate_version_reactivation_allow_valid cv m l

/-- Witness for C10 at a concrete input: a new-activation title whose body
mentions the word "reactivation" and declares a version far below the
minimum is still judged valid. -/
theorem c10_witness :
    is_reactivation_request "Auto-Activation Request - Acme Corp - AB12CD34EF56GH78"
        "Notes: reactivation planned later"
      = (occursL "reactivation".data
            (pyLower "Auto-Activation Request - Acme Corp - AB12CD34EF56GH78".data)
          || occursL "reactivation".data (pyLower "Notes: reactivation planned later".data))
    ∧ (occursL "reactivation".data (pyLower "Notes: reactivation planned later".data) = true →
        (validate_version (some "1.0.0") "3.2.4" "3.2.4"
            (is_reactivation_request "Auto-Activation Request - Acme Corp - AB12CD34EF56GH78"
              "Notes: reactivation planned later") true).valid = true) :=
  c10_reactivation_classification
    "Auto-Activation Request - Acme Corp - AB12CD34EF56GH78"
    "Notes: reactivation planned later" (some "1.0.0") "3.2.4" "3.2.4"

/-- C5: with no client version provided, a reactivation under a policy that
allows older reactivations is valid and warning-only with the
version-omitted message; every other combination is invalid with the
explanatory no-version message. -/
theorem c5_omitted_version (m l : String) (isRe allow : Bool) (cv : Option String)
    (h : pyTruthy cv = false) :
    ((isRe && allow) = true →
      (validate_version cv m l isRe allow).valid = true
      ∧ (validate_version cv m l isRe allow).warning_only = true
      ∧ (validate_version cv m l isRe allow).message =
          "Reactivation request - version not provided but allowed for existing licenses")
    ∧ ((isRe && allow) = false →
      (validate_version cv m l isRe allow).valid = false
      ∧ (validate_version cv m l isRe allow).message =
          "No software version information provided in request") := by
  unfold validate_version
  constructor
  · intro hra
    simp [h, hra]
  · intro hra
    simp [h, hra]

/-- Witness for C5 at a concrete input: an omitted version on a reactivation
with older reactivations allowed. -/
theorem c5_witness :
    (validate_version none "3.2.4" "3.2.4" true true).valid = true
    ∧ (validate_version none "3.2.4" "3.2.4" true true).warning_only = true
    ∧ (validate_version none "3.2.4" "3.2.4" true true).message =
        "Reactivation request - version not provided but allowed for existing licenses" :=
  (c5_omitted_version "3.2.4" "3.2.4" true true none rfl).1 rfl

theorem occursL_head (n t : List Char) : occursL n (n ++ t) = true :=
  occursL_of_startsWithL (startsWithL_append n t)

/-- C4: on the new-activation path with a provided version, the decision is
valid exactly when the client version compares at or above the minimum; a
valid decision below latest is warning-only; an invalid decision carries the
outdated message, which cites both the minimum and the latest version. -/
theorem c4_new_activation_version (v m l : String) (allow : Bool) (hv : ¬ v = "") :
    ((validate_version (some v) m l false allow).valid = true ↔ 0 ≤ compare_versions v m)
    ∧ ((validate_version (some v) m l false allow).valid = true →
        compare_versions v l < 0 →
        (validate_version (some v) m l false allow).warning_only = true)
    ∧ ((validate_version (some v) m l false allow).valid = false →
        (validate_version (some v) m l false allow).message =
          "Version " ++ v ++ " is outdated. Minimum required: " ++ m ++ ". Latest: " ++ l ++
            ". Please update software before activation."
        ∧ occursStr m (validate_version (some v) m l false allow).message = true
        ∧ occursStr l (validate_version (some v) m l false allow).message = true) := by
  have htr : pyTruthy (some v) = true := by simp [pyTruthy, hv]
  by_cases h1 : compare_versions v m < 0
  · have hno : ¬ 0 ≤ compare_versions v m := by omega
    refine ⟨?_, ?_, ?_⟩
    · simp [validate_version, htr, h1, hno]
    · intro hval
      simp [validate_version, htr, h1, hno] at hval
    · intro _
      have hmsg : (validate_version (some v) m l false allow).message =
          "Version " ++ v ++ " is outdated. Minimum required: " ++ m ++ ". Latest: " ++ l ++
            ". Please update software before activation." := by
        simp [validate_version, htr, h1]
      refine ⟨hmsg, ?_, ?_⟩
      · unfold occursStr
        rw [hmsg]
        simp only [strData_append, List.append_assoc]
        exact occursL_append_left _ _ (occursL_append_left _ _
          (occursL_append_left _ _ (occursL_head _ _)))
      · unfold occursStr
        rw [hmsg]
        simp only [strData_append, List.append_assoc]
        exact occursL_append_left _ _ (occursL_append_left _ _
          (occursL_append_left _ _ (occursL_append_left _ _
            (occursL_append_left _ _ (occursL_head _ _)))))
  · have hyes : 0 ≤ compare_versions v m := by omega
    have hvv : (validate_version (some v) m l false allow).valid = true := by
      unfold validate_version
      rw [if_neg (by simp [htr] : ¬ pyTruthy (some v) = false)]
      simp only [Bool.false_and, Bool.false_eq_true, if_false, Option.getD_some]
      rw [if_neg h1]
      split <;> simp [hyes]
    refine ⟨by simp [hvv, hyes], ?_, ?_⟩
    · intro _ h2
      simp [validate_version, htr, h1, hyes, h2]
    · intro hval
      rw [hvv] at hval
      exact absurd hval (by simp)

/-- Witness for C4 at Scenario 2's concrete input: client version 3.0.0
against minimum 3.2.4 is rejected and the message cites the minimum and the
latest version. -/
theorem c4_witness :
    (validate_version (some "3.0.0") "3.2.4" "3.2.4" false true).message =
      "Version " ++ "3.0.0" ++ " is outdated. Minimum required: " ++ "3.2.4" ++
        ". Latest: " ++ "3.2.4" ++ ". Please update software before activation."
    ∧ occursStr "3.2.4" (validate_version (some "3.0.0") "3.2.4" "3.2.4" false true).message
        = true :=
  have h := (c4_new_activation_version "3.0.0" "3.2.4" "3.2.4" true (by decide)).2.2 (by decide)
  ⟨h.1, h.2.1⟩

/-! ## Reactivation lemmas -/

/-- C2: reactivating a record whose stored expiry parses to `T` yields expiry
`T` plus 30 days, stamps `last_reactivated` with the current instant, bumps
`reactivation_count` by exactly one (from 0 if absent), sets the status to
active, and a second immediate reactivation lands on `T` plus 60 days
whatever the clock says. -/
theorem c2_reactivation_extends (now now2 T : Int) (r : LicenseRecord)
    (h : r.expires_date = some (DateVal.iso T)) :
    (reactivate_license now r).map LicenseRecord.expires_date
        = some (some (DateVal.iso (T + 30 * 86400)))
    ∧ (reactivate_license now r).map LicenseRecord.last_reactivated
        = some (some (DateVal.iso now))
    ∧ (reactivate_license now r).map LicenseRecord.reactivation_count
        = some (some (r.reactivation_count.getD 0 + 1))
    ∧ (reactivate_license now r).map LicenseRecord.status = some (some "active")
    ∧ ((reactivate_license now r).bind (reactivate_license now2)).map
          LicenseRecord.expires_date
        = some (some (DateVal.iso (T + 60 * 86400))) := by
  refine ⟨?_, ?_, ?_, ?_, ?_⟩ <;>
    simp [reactivate_license, h, Option.bind] <;> omega

/-- Witness for C2 on a freshly issued concrete record (30-day license issued
at instant 0, so its expiry parses to 2592000). -/
theorem c2_witness :
    (reactivate_license 7 (create_license "AB12CD34EF56GH78" "Acme Corp" "ops@acme.com" 30 0)).map
        LicenseRecord.expires_date = some (some (DateVal.iso (2592000 + 30 * 86400)))
    ∧ (reactivate_license 7 (create_license "AB12CD34EF56GH78" "Acme Corp" "ops@acme.com" 30 0)).map
        LicenseRecord.last_reactivated = some (some (DateVal.iso 7))
    ∧ (reactivate_license 7 (create_license "AB12CD34EF56GH78" "Acme Corp" "ops@acme.com" 30 0)).map
        LicenseRecord.reactivation_count
        = some (some ((create_license "AB12CD34EF56GH78" "Acme Corp" "ops@acme.com" 30 0).reactivation_count.getD 0 + 1))
    ∧ (reactivate_license 7 (create_license "AB12CD34EF56GH78" "Acme Corp" "ops@acme.com" 30 0)).map
        LicenseRecord.status = some (some "active")
    ∧ ((reactivate_license 7 (create_license "AB12CD34EF56GH78" "Acme Corp" "ops@acme.com" 30 0)).bind
          (reactivate_license 11)).map LicenseRecord.expires_date
        = some (some (DateVal.iso (2592000 + 60 * 86400))) :=
  c2_reactivation_extends 7 11 2592000
    (create_license "AB12CD34EF56GH78" "Acme Corp" "ops@acme.com" 30 0) rfl

/-- C9: reactivation changes only the expiry, the reactivation stamp, the
reactivation count and the status; every other field of the record — the
license key, creation date, fingerprint, company, email and the static
metadata — is returned unchanged. -/
theorem c9_reactivation_frame (now : Int) (r : LicenseRecord)
    (h : (reactivate_license now r).isSome = true) :
    (reactivate_license now r).map LicenseRecord.license_key = some r.license_key
    ∧ (reactivate_license now r).map LicenseRecord.created_date = some r.created_date
    ∧ (reactivate_license now r).map LicenseRecord.hardware_fingerprint
        = some r.hardware_fingerprint
    ∧ (reactivate_license now r).map LicenseRecord.company_name = some r.company_name
    ∧ (reactivate_license now r).map LicenseRecord.contact_email = some r.contact_email
    ∧ (reactivate_license now r).map LicenseRecord.version = some r.version
    ∧ (reactivate_license now r).map LicenseRecord.auto_generated = some r.auto_generated
    ∧ (reactivate_license now r).map LicenseRecord.reactivation_required
        = some r.reactivation_required
    ∧ (reactivate_license now r).map LicenseRecord.generated_by = some r.generated_by
    ∧ (reactivate_license now r).map LicenseRecord.generation_method
        = some r.generation_method := by
  match he : r.expires_date with
  | some (DateVal.iso t) =>
    refine ⟨?_, ?_, ?_, ?_, ?_, ?_, ?_, ?_, ?_, ?_⟩ <;> simp [reactivate_license, he]
  | some (DateVal.junk s) =>
    rw [reactivate_license, he] at h
    simp at h
  | none =>
    rw [reactivate_license, he] at h
    simp at h

/-- Witness for C9 on the same freshly issued concrete record. -/
theorem c9_witness :
    (reactivate_license 7 (create_license "AB12CD34EF56GH78" "Acme Corp" "ops@acme.com" 30 0)).map
        LicenseRecord.license_key
        = some (create_license "AB12CD34EF56GH78" "Acme Corp" "ops@acme.com" 30 0).license_key
    ∧ (reactivate_license 7 (create_license "AB12CD34EF56GH78" "Acme Corp" "ops@acme.com" 30 0)).map
        LicenseRecord.created_date
        = some (create_license "AB12CD34EF56GH78" "Acme Corp" "ops@acme.com" 30 0).created_date
    ∧ (reactivate_license 7 (create_license "AB12CD34EF56GH78" "Acme Corp" "ops@acme.com" 30 0)).map
        LicenseRecord.hardware_fingerprint
        = some (create_license "AB12CD34EF56GH78" "Acme Corp" "ops@acme.com" 30 0).hardware_fingerprint :=
  have h := c9_reactivation_frame 7
    (create_license "AB12CD34EF56GH78" "Acme Corp" "ops@acme.com" 30 0) rfl
  ⟨h.1, h.2.1, h.2.2.1⟩

/-! ## Expiry scan lemmas -/

theorem find_expiring_eq_filter (now days_ahead : Int) (licenses : List LicenseRecord) :
    find_expiring_licenses now days_ahead licenses
      = licenses.filter (expiringP now days_ahead) := by
  induction licenses with
  | nil => rfl
  | cons r rest ih =>
    by_cases hs : r.status = some "active"
    · match he : r.expires_date with
      | none => simp [find_expiring_licenses, expiringP, hs, he, List.filter, ih]
      | some (DateVal.junk s) =>
        by_cases hf : dateFalsy (DateVal.junk s) = true <;>
          simp_all [find_expiring_licenses, expiringP, List.filter, ih]
      | some (DateVal.iso t) =>
        by_cases hc : t ≤ now + days_ahead * 86400 <;>
          simp [find_expiring_licenses, expiringP, hs, he, hc, dateFalsy, List.filter, ih]
    · simp [find_expiring_licenses, expiringP, hs, List.filter, ih]

/-- C3: the expiry scan keeps, in input order, exactly the active records
whose stored expiry parses to an instant at or before now plus the lookahead
window; inactive records and records with a missing or unparsable expiry are
skipped without stopping the scan (the scan is a total filter of the whole
list), and the report carries the full count of scanned records alongside
the expiring subset. -/
theorem c3_scan_partition (now days_ahead : Int) (licenses : List LicenseRecord) :
    find_expiring_licenses now days_ahead licenses
      = licenses.filter (expiringP now days_ahead)
    ∧ (scanReport now licenses).1 = licenses.filter (expiringP now 5)
    ∧ (scanReport now licenses).2 = licenses.length :=
  ⟨find_expiring_eq_filter now days_ahead licenses,
   find_expiring_eq_filter now 5 licenses, rfl⟩

/-! ## Issuance gate lemmas -/

/-- C1 is contradicted by the code: `validate-request.py` accepts exactly the
16-character alphanumeric fingerprints, but the issuance gate in
`generate-license.py` exits with "Invalid hardware fingerprint" whenever the
fingerprint is shorter than 32 characters — so every fingerprint the
validator accepts is rejected by the issuer and no license record is
produced. -/
theorem c1_validated_fingerprint_never_issued (fp company email : String)
    (duration now : Int) (h : validate_hardware_fingerprint fp = true) :
    generateMain fp company email duration now = none := by
  have hlen : fp.data.length = 16 ∨ fp.data.length = 17 := by
    unfold validate_hardware_fingerprint at h
    simp only [Bool.or_eq_true, Bool.and_eq_true, beq_iff_eq] at h
    rcases h with ⟨h16, -⟩ | ⟨⟨h17, -⟩, -⟩
    · exact Or.inl h16
    · exact Or.inr h17
  have hshort : fp.length < 32 := by
    have : fp.length = fp.data.length := rfl
    omega
  unfold generateMain
  rw [if_pos]
  simp [hshort]

/-- Witness for C1: the spec's own example fingerprint passes the request
validator and is nonetheless rejected by the license issuer. -/
theorem c1_witness :
    validate_hardware_fingerprint "AB12CD34EF56GH78" = true
    ∧ generateMain "AB12CD34EF56GH78" "Acme Corp" "ops@acme.com" 30 0 = none :=
  ⟨by decide,
   c1_validated_fingerprint_never_issued "AB12CD34EF56GH78" "Acme Corp" "ops@acme.com" 30 0
     (by decide)⟩

/-- C6 is contradicted by the code: neither `create_license` nor the issuance
`main` checks the duration, so a zero-day issuance is accepted and produces a
record whose expiry instant equals its creation instant. -/
theorem c6_nonpositive_duration_not_rejected :
    generateMain "ABCDEFGHIJKLMNOP0123456789QRSTUV" "Acme Corp" "ops@acme.com" 0 0
      = some (create_license "ABCDEFGHIJKLMNOP0123456789QRSTUV" "Acme Corp" "ops@acme.com" 0 0)
    ∧ (create_license "ABCDEFGHIJKLMNOP0123456789QRSTUV" "Acme Corp" "ops@acme.com" 0 0).expires_date
      = (create_license "ABCDEFGHIJKLMNOP0123456789QRSTUV" "Acme Corp" "ops@acme.com" 0 0).created_date := by
  constructor
  · rfl
  · rfl

/-! ## Version comparison lemmas -/

theorem cmpLex_repl_right (as : List Int) :
    cmpLex as (List.replicate as.length 0) = cmpZero as [] := by
  induction as with
  | nil => simp [cmpLex, cmpZero]
  | cons a as ih => simp [List.replicate_succ, cmpLex, cmpZero, ih]

theorem cmpLex_repl_left (bs : List Int) :
    cmpLex (List.replicate bs.length 0) bs = cmpZero [] bs := by
  induction bs with
  | nil => simp [cmpLex, cmpZero]
  | cons b bs ih => simp [List.replicate_succ, cmpLex, cmpZero, ih]

theorem cmpLex_pad_eq_cmpZero (p1 : List Int) : ∀ p2 : List Int,
    cmpLex (padZeros p1 (max p1.length p2.length)) (padZeros p2 (max p1.length p2.length))
      = cmpZero p1 p2 := by
  induction p1 with
  | nil =>
    intro p2
    cases p2 with
    | nil => simp [padZeros, cmpLex, cmpZero]
    | cons b bs =>
      simp only [padZeros, List.length_nil, List.nil_append, List.length_cons,
        Nat.max_eq_right (Nat.zero_le _), Nat.sub_zero, Nat.sub_self, List.replicate_succ,
        List.append_nil, List.replicate_zero]
      simp [cmpLex, cmpZero, cmpLex_repl_left]
  | cons a as ih =>
    intro p2
    cases p2 with
    | nil =>
      simp only [padZeros, List.length_cons, List.length_nil,
        Nat.max_eq_left (Nat.zero_le _), Nat.sub_self, List.replicate_zero, List.append_nil,
        Nat.sub_zero, List.nil_append, List.replicate_succ]
      simp [cmpLex, cmpZero, cmpLex_repl_right]
    | cons b bs =>
      have hmax : max (a :: as).length (b :: bs).length = max as.length bs.length + 1 := by
        simp [Nat.succ_max_succ]
      have h1 : padZeros (a :: as) (max as.length bs.length + 1)
          = a :: padZeros as (max as.length bs.length) := by
        simp [padZeros, Nat.succ_sub_succ]
      have h2 : padZeros (b :: bs) (max as.length bs.length + 1)
          = b :: padZeros bs (max as.length bs.length) := by
        simp [padZeros, Nat.succ_sub_succ]
      rw [hmax, h1, h2]
      simp [cmpLex, cmpZero, ih bs]

theorem cmpZero_nil_comm (bs : List Int) : cmpZero [] bs = - cmpZero bs [] := by
  induction bs with
  | nil => simp [cmpZero]
  | cons b bs ih =>
    simp only [cmpZero]
    rcases lt_trichotomy b 0 with h | h | h
    · rw [if_pos h, if_neg (by omega : ¬ 0 < b), if_pos h]
      norm_num
    · subst h
      simpa using ih
    · rw [if_neg (by omega : ¬ b < 0), if_pos h, if_pos h]

theorem cmpZero_neg (as : List Int) : ∀ bs : List Int, cmpZero as bs = - cmpZero bs as := by
  induction as with
  | nil => exact fun bs => cmpZero_nil_comm bs
  | cons a as ih =>
    intro bs
    cases bs with
    | nil =>
      have h := cmpZero_nil_comm (a :: as)
      omega
    | cons b bs =>
      simp only [cmpZero]
      rcases lt_trichotomy a b with h | h | h
      · rw [if_neg (by omega : ¬ b < a), if_pos h, if_pos h]
      · subst h
        simp only [lt_irrefl, if_false, if_neg (lt_irrefl a)]
        simpa using ih bs
      · rw [if_pos h, if_neg (by omega : ¬ a < b), if_pos h]
        norm_num

theorem compare_versions_eq_specCompare (a b : String) :
    compare_versions a b = specCompare a b := by
  unfold compare_versions specCompare
  cases ha : parseParts a with
  | none => rfl
  | some p1 =>
    cases hb : parseParts b with
    | none => rfl
    | some p2 => exact cmpLex_pad_eq_cmpZero p1 p2

theorem compare_versions_antisym (a b : String) :
    compare_versions a b = - compare_versions b a := by
  rw [compare_versions_eq_specCompare, compare_versions_eq_specCompare]
  unfold specCompare
  cases ha : parseParts a with
  | none =>
    cases hb : parseParts b with
    | none => norm_num
    | some p2 => norm_num
  | some p1 =>
    cases hb : parseParts b with
    | none => norm_num
    | some p2 => exact cmpZero_neg p1 p2

/-- C7: `compare_versions` coincides with the zero-padded component-wise
comparison of the dot-split integer tuples, returning 0 when any component
fails to parse; the zero-padding and ordering examples hold, and the
comparison is antisymmetric on pairs with equally many components. -/
theorem c7_compare_versions_spec (a b : String) :
    compare_versions a b = specCompare a b
    ∧ compare_versions "3.2.0" "3.2" = 0
    ∧ compare_versions "3.3.0" "3.2.9" = 1
    ∧ ((splitDot a.data).length = (splitDot b.data).length →
        compare_versions a b = - compare_versions b a) :=
  ⟨compare_versions_eq_specCompare a b, by decide, by decide,
   fun _ => compare_versions_antisym a b⟩

/-- Witness for C7 at a concrete equal-length pair. -/
theorem c7_witness :
    (splitDot "1.2".data).length = (splitDot "1.3".data).length
    ∧ compare_versions "1.2" "1.3" = - compare_versions "1.3" "1.2" :=
  ⟨by decide, (c7_compare_versions_spec "1.2" "1.3").2.2.2 (by decide)⟩

/-- C8: the request validator's error list is exactly the concatenation of
the three per-field validations — fingerprint, company, email — each
depending only on its own extracted field, so no failure hides another; the
result is valid exactly when that list is empty; and the concrete two-fault
input (title without the structured company pattern, body fingerprint valid,
email without an at sign) yields exactly the two expected errors. -/
theorem c8_validator_collects_all (title body : String) :
    (extract_issue_info title body).errors
      = fingerprintErrors (extract_issue_info title body).fingerprint
        ++ companyErrors (extract_issue_info title body).company
        ++ emailErrors (extract_issue_info title body).email
    ∧ ((extract_issue_info title body).valid = true
        ↔ (extract_issue_info title body).errors = [])
    ∧ (extract_issue_info "hello" "Hardware Fingerprint: AB12CD34EF56GH78\nEmail: bogus").errors
        = ["Company name not found", "Invalid email format"] := by
  refine ⟨rfl, ?_, by decide⟩
  have hv : (extract_issue_info title body).valid
      = ((extract_issue_info title body).errors == []) := rfl
  rw [hv]
  simp
